import Mathlib

/-!
Verification of the grade-management example (`integration.rs`).

The Rust code stores grades as `f64`. We shallow-embed `f64` as `F64`:
either NaN or an exact rational value. Every finite `f64` is a rational
number, and the comparisons the code performs (`<`, `>`, `>=` against the
constants 0, 60, 70, 80, 90, 100) coincide with exact rational comparison
on finite values, while NaN compares false against everything, as in IEEE
754. Addition and division are modelled exactly on rationals (rounding is
not modelled); NaN propagates through arithmetic.
-/

/-- Model of Rust `f64`: NaN, or an exact rational value. -/
inductive F64 where
  | nan : F64
  | val : ℚ → F64
deriving DecidableEq

namespace F64

/-- IEEE `<`: false whenever an operand is NaN. -/
def lt : F64 → F64 → Bool
  | val a, val b => decide (a < b)
  | _, _ => false

/-- IEEE `>`: false whenever an operand is NaN. -/
def gt : F64 → F64 → Bool
  | val a, val b => decide (b < a)
  | _, _ => false

/-- IEEE `>=`: false whenever an operand is NaN. -/
def ge : F64 → F64 → Bool
  | val a, val b => decide (b ≤ a)
  | _, _ => false

/-- IEEE `<=`: false whenever an operand is NaN. -/
def le : F64 → F64 → Bool
  | val a, val b => decide (a ≤ b)
  | _, _ => false

/-- Addition; NaN propagates. -/
def add : F64 → F64 → F64
  | val a, val b => val (a + b)
  | _, _ => nan

/-- Division by a (nonzero) natural number, as in `sum / len as f64`. -/
def divNat : F64 → Nat → F64
  | val a, n => val (a / (n : ℚ))
  | nan, _ => nan

/-- Decimal digits of the fractional part `num/den` (with `num < den`),
fuel-bounded; every value the program prints has a finite expansion. -/
def fracDigits (num den : Nat) : Nat → String
  | 0 => ""
  | fuel + 1 =>
    if num = 0 then ""
    else
      let n10 := num * 10
      toString (n10 / den) ++ fracDigits (n10 % den) den fuel

/-- Rust `Debug` formatting of `f64` (`{:?}` always shows a decimal
point, e.g. `85.0`), modelled for values with finite decimal expansion. -/
def fmtDebug : F64 → String
  | nan => "NaN"
  | val q =>
    let sign := if q.num < 0 then "-" else ""
    let n := q.num.natAbs
    let ip := n / q.den
    let r := n % q.den
    if r = 0 then sign ++ toString ip ++ ".0"
    else sign ++ toString ip ++ "." ++ fracDigits r q.den 40

/-- Rust `Display` formatting of `f64` (`to_string()`; integral values
print without a decimal point, e.g. `85`), modelled for values with
finite decimal expansion. -/
def fmtDisplay : F64 → String
  | nan => "NaN"
  | val q =>
    let sign := if q.num < 0 then "-" else ""
    let n := q.num.natAbs
    let ip := n / q.den
    let r := n % q.den
    if r = 0 then sign ++ toString ip
    else sign ++ toString ip ++ "." ++ fracDigits r q.den 40

end F64

/-- Rust `iter().sum::<f64>()`: left fold of `+` starting from `0.0`. -/
def sumF64 (l : List F64) : F64 := l.foldl F64.add (F64.val 0)

/-- The `Student` struct of `integration.rs`. -/
structure Student where
  name : String
  grades : List F64
  letter_grade : Option Char
deriving DecidableEq

namespace Student

/-- Rust `Student::new`. -/
def new (name : String) : Student :=
  { name := name, grades := [], letter_grade := none }

/-- Rust `Student::calculate_average`. -/
def calculate_average (s : Student) : Option F64 :=
  if s.grades.isEmpty then none
  else some (F64.divNat (sumF64 s.grades) s.grades.length)

/-- The match-with-guards closure inside `calculate_letter_grade`,
evaluated top-down, first match wins. -/
def letterOf (avg : F64) : Char :=
  if F64.ge avg (F64.val 90) then 'A'
  else if F64.ge avg (F64.val 80) then 'B'
  else if F64.ge avg (F64.val 70) then 'C'
  else if F64.ge avg (F64.val 60) then 'D'
  else 'F'

/-- Rust `Student::calculate_letter_grade`: sets `letter_grade` from the
current average (in-place mutation modelled as returning the new state). -/
def calculate_letter_grade (s : Student) : Student :=
  { s with letter_grade := s.calculate_average.map letterOf }

/-- Rust `Student::add_grade`. The method takes `&mut self` and returns
`Result<(), String>`; we return the result paired with the state after
the call (on the early error return, the state is unchanged). -/
def add_grade (s : Student) (grade : F64) : Except String Unit × Student :=
  if F64.lt grade (F64.val 0) || F64.gt grade (F64.val 100) then
    (Except.error "Grade must be between 0 and 100", s)
  else
    (Except.ok (), calculate_letter_grade { s with grades := s.grades ++ [grade] })

/-- Rust `Debug` formatting of `Vec<f64>`. -/
def vecDebug (l : List F64) : String :=
  "[" ++ String.intercalate ", " (l.map F64.fmtDebug) ++ "]"

/-- Rust `Student::generate_report`. -/
def generate_report (s : Student) : String :=
  let avg := (s.calculate_average.map F64.fmtDisplay).getD "No grades yet"
  let letter := (s.letter_grade.map Char.toString).getD "N/A"
  "Student: " ++ s.name ++ "\nGrades: " ++ vecDebug s.grades ++
    "\nAverage: " ++ avg ++ "\nLetter Grade: " ++ letter

end Student

/-- Acceptance predicate of the `add_grade` guard: the guard passes on
NaN and on every value in [0, 100]. -/
def gradeOk (g : F64) : Prop :=
  g = F64.nan ∨ ∃ q : ℚ, g = F64.val q ∧ 0 ≤ q ∧ q ≤ 100

/-- State invariant: every stored grade passed the guard, and the cached
letter grade agrees with the letter derived from the current average. -/
def studentInv (s : Student) : Prop :=
  (∀ g ∈ s.grades, gradeOk g) ∧
    s.letter_grade = s.calculate_average.map Student.letterOf

/-- Run a sequence of `add_grade` calls, threading the state (a failing
call leaves the state unchanged, as in the Rust early return). -/
def addAll (s : Student) (gs : List F64) : Student :=
  gs.foldl (fun st g => (st.add_grade g).2) s

namespace Student

/-- The guard of `add_grade` is false exactly on non-NaN values in [0, 100]. -/
theorem guard_false_iff (g : F64) :
    (F64.lt g (F64.val 0) || F64.gt g (F64.val 100)) = false ↔
      (g = F64.nan ∨ ∃ q : ℚ, g = F64.val q ∧ 0 ≤ q ∧ q ≤ 100) := by
  cases g with
  | nan => simp [F64.lt, F64.gt]
  | val q =>
    simp only [F64.lt, F64.gt, Bool.or_eq_false_iff, decide_eq_false_iff_not, not_lt]
    constructor
    · rintro ⟨h0, h100⟩
      exact Or.inr ⟨q, rfl, h0, h100⟩
    · rintro (h | ⟨q', hq, h0, h100⟩)
      · cases h
      · cases hq
        exact ⟨h0, h100⟩

/-- Helper: `calculate_letter_grade` changes only the `letter_grade` field. -/
theorem calculate_letter_grade_fields (s : Student) :
    (calculate_letter_grade s).name = s.name ∧
      (calculate_letter_grade s).grades = s.grades ∧
      (calculate_letter_grade s).letter_grade = s.calculate_average.map letterOf := by
  simp [calculate_letter_grade]

/-- Helper: `calculate_average` depends only on the grades. -/
theorem calculate_average_congr (s t : Student) (h : s.grades = t.grades) :
    s.calculate_average = t.calculate_average := by
  simp [calculate_average, h]

end Student

namespace Student

/-- Helper: summing a list of non-NaN values is exact rational summation. -/
theorem foldl_add_map_val (a : ℚ) (qs : List ℚ) :
    (qs.map F64.val).foldl F64.add (F64.val a) = F64.val (a + qs.sum) := by
  induction qs generalizing a with
  | nil => simp
  | cons q qs ih => simp [F64.add, ih, add_assoc]

/-- C1: a score in [0, 100] is accepted: `add_grade` returns `Ok`, appends
the score as the last element of the grade sequence (keeping the previous
grades in order), and recomputes the letter grade from the new average. -/
theorem add_grade_in_range (s : Student) (q : ℚ) (h0 : 0 ≤ q) (h100 : q ≤ 100) :
    (s.add_grade (F64.val q)).1 = Except.ok () ∧
      (s.add_grade (F64.val q)).2.grades = s.grades ++ [F64.val q] ∧
      (s.add_grade (F64.val q)).2.letter_grade =
        ((s.add_grade (F64.val q)).2.calculate_average).map letterOf := by
  have hg : (F64.lt (F64.val q) (F64.val 0) || F64.gt (F64.val q) (F64.val 100)) = false := by
    simp [F64.lt, F64.gt, not_lt, h0, h100]
  refine ⟨?_, ?_, ?_⟩ <;>
    simp [add_grade, hg, calculate_letter_grade, calculate_average]

/-- Witness for C1: adding 85 to a fresh student succeeds. -/
theorem add_grade_in_range_witness :
    ((Student.new "Alice").add_grade (F64.val 85)).1 = Except.ok () ∧
      ((Student.new "Alice").add_grade (F64.val 85)).2.grades = [] ++ [F64.val 85] ∧
      ((Student.new "Alice").add_grade (F64.val 85)).2.letter_grade =
        (((Student.new "Alice").add_grade (F64.val 85)).2.calculate_average).map letterOf :=
  add_grade_in_range (Student.new "Alice") 85 (by norm_num) (by norm_num)

/-- C2: a score outside [0, 100] is rejected: `add_grade` returns the
validation error and the whole student record is returned unchanged. -/
theorem add_grade_out_of_range (s : Student) (q : ℚ) (h : q < 0 ∨ 100 < q) :
    (s.add_grade (F64.val q)).1 = Except.error "Grade must be between 0 and 100" ∧
      (s.add_grade (F64.val q)).2 = s := by
  have hg : (F64.lt (F64.val q) (F64.val 0) || F64.gt (F64.val q) (F64.val 100)) = true := by
    rcases h with h | h <;> simp [F64.lt, F64.gt, h]
  exact ⟨by simp [add_grade, hg], by simp [add_grade, hg]⟩

/-- Witness for C2: adding 150 fails and leaves the student unchanged. -/
theorem add_grade_out_of_range_witness :
    ((Student.new "Bob").add_grade (F64.val 150)).1 =
        Except.error "Grade must be between 0 and 100" ∧
      ((Student.new "Bob").add_grade (F64.val 150)).2 = Student.new "Bob" :=
  add_grade_out_of_range (Student.new "Bob") 150 (Or.inr (by norm_num))

end Student

namespace Student

/-- C3: the letter mapping is the first-match-wins threshold table: on
(non-NaN) averages it yields exactly the bands A: avg ≥ 90, B: 80 ≤ avg
< 90, C: 70 ≤ avg < 80, D: 60 ≤ avg < 70, F: avg < 60; in particular
90.0 ↦ A, 89.999 ↦ B, 60.0 ↦ D, 59.999 ↦ F. -/
theorem letterOf_bands :
    (∀ q : ℚ,
      (letterOf (F64.val q) = 'A' ↔ 90 ≤ q) ∧
        (letterOf (F64.val q) = 'B' ↔ 80 ≤ q ∧ q < 90) ∧
        (letterOf (F64.val q) = 'C' ↔ 70 ≤ q ∧ q < 80) ∧
        (letterOf (F64.val q) = 'D' ↔ 60 ≤ q ∧ q < 70) ∧
        (letterOf (F64.val q) = 'F' ↔ q < 60)) ∧
      letterOf (F64.val 90) = 'A' ∧
      letterOf (F64.val (89999 / 1000)) = 'B' ∧
      letterOf (F64.val 60) = 'D' ∧
      letterOf (F64.val (59999 / 1000)) = 'F' := by
  constructor
  · intro q
    simp only [letterOf, F64.ge, decide_eq_true_eq]
    split_ifs with h1 h2 h3 h4 <;>
      refine ⟨?_, ?_, ?_, ?_, ?_⟩ <;>
      simp_all <;> intros <;> linarith
  · refine ⟨?_, ?_, ?_, ?_⟩ <;> with_unfolding_all rfl

/-- C4: the average is `none` exactly when there are no grades; on a
non-empty list of (non-NaN) grades it is the exact arithmetic mean; and
for a student with a single grade `g` it returns exactly `g`. -/
theorem calculate_average_spec (s : Student) :
    (s.calculate_average = none ↔ s.grades = []) ∧
      (∀ qs : List ℚ, s.grades = qs.map F64.val → qs ≠ [] →
        s.calculate_average = some (F64.val (qs.sum / qs.length))) ∧
      (∀ g : F64, s.grades = [g] → s.calculate_average = some g) := by
  refine ⟨?_, ?_, ?_⟩
  · simp [calculate_average, List.isEmpty_iff]
  · intro qs hqs hne
    simp [calculate_average, hqs, List.isEmpty_iff, hne, sumF64,
      foldl_add_map_val, F64.divNat]
  · intro g hg
    cases g with
    | nan => simp [calculate_average, hg, sumF64, F64.add, F64.divNat]
    | val q => simp [calculate_average, hg, sumF64, F64.add, F64.divNat]

/-- Witness for C4: a student holding the single grade 85 has average
exactly 85. -/
theorem calculate_average_spec_witness :
    (Student.mk "A" [F64.val 85] none).calculate_average = some (F64.val 85) :=
  (calculate_average_spec (Student.mk "A" [F64.val 85] none)).2.2 (F64.val 85) rfl

/-- C8: `add_grade` never touches the `name` field (on either branch),
and `calculate_letter_grade` changes neither `name` nor `grades`. -/
theorem add_grade_frame (s : Student) (g : F64) :
    (s.add_grade g).2.name = s.name ∧
      s.calculate_letter_grade.name = s.name ∧
      s.calculate_letter_grade.grades = s.grades := by
  refine ⟨?_, rfl, rfl⟩
  unfold add_grade
  split <;> simp [calculate_letter_grade]

/-- C9: NaN passes the range guard (both IEEE comparisons are false), so
`add_grade` succeeds and appends NaN, even though NaN does not lie in
[0, 100] under IEEE comparison. -/
theorem add_grade_nan (s : Student) :
    (s.add_grade F64.nan).1 = Except.ok () ∧
      (s.add_grade F64.nan).2.grades = s.grades ++ [F64.nan] ∧
      F64.lt F64.nan (F64.val 0) = false ∧
      F64.gt F64.nan (F64.val 100) = false ∧
      F64.ge F64.nan (F64.val 0) = false ∧
      F64.le F64.nan (F64.val 100) = false := by
  refine ⟨?_, ?_, rfl, rfl, rfl, rfl⟩ <;>
    simp [add_grade, F64.lt, F64.gt, calculate_letter_grade]

/-- C10: `Student::new` accepts any name (no validation, the empty string
included) and returns a student with that name, no grades, and no letter
grade. -/
theorem new_spec (name : String) :
    (Student.new name).name = name ∧
      (Student.new name).grades = [] ∧
      (Student.new name).letter_grade = none :=
  ⟨rfl, rfl, rfl⟩

end Student

namespace Student

/-- Helper: the empty grade vector prints as `[]`. -/
theorem vecDebug_nil : vecDebug [] = "[]" := rfl

/-- Helper: string concatenation is associative. -/
theorem string_append_assoc (a b c : String) : a ++ b ++ c = a ++ (b ++ c) := by
  cases a with | mk la =>
  cases b with | mk lb =>
  cases c with | mk lc =>
  show String.mk (la ++ lb ++ lc) = String.mk (la ++ (lb ++ lc))
  rw [List.append_assoc]

/-- Helper: a fresh student satisfies the state invariant. -/
theorem studentInv_new (name : String) : studentInv (Student.new name) := by
  constructor
  · intro g hg
    simp [Student.new] at hg
  · simp [Student.new, calculate_average]

/-- Helper: one `add_grade` call preserves the state invariant. -/
theorem studentInv_add_grade (s : Student) (g : F64) (h : studentInv s) :
    studentInv ((s.add_grade g).2) := by
  unfold add_grade
  split
  · exact h
  · rename_i hguard
    constructor
    · intro x hx
      simp only [calculate_letter_grade] at hx
      rcases List.mem_append.mp hx with hold | hnew
      · exact h.1 x hold
      · have hg : (F64.lt g (F64.val 0) || F64.gt g (F64.val 100)) = false :=
          Bool.not_eq_true _ ▸ Bool.of_not_eq_true hguard
        have := (guard_false_iff g).mp hg
        rcases List.mem_singleton.mp hnew with rfl
        exact this
    · simp [calculate_letter_grade, calculate_average]

/-- Counterexample to C5 as stated: the student obtained from `new` by the
single call `add_grade NaN` has NaN in its grade sequence, and NaN does
not lie in [0, 100] under the code's (IEEE) comparisons. -/
theorem grades_range_counterexample :
    (((Student.new "A").add_grade F64.nan).2).grades = [F64.nan] ∧
      F64.ge F64.nan (F64.val 0) = false ∧
      F64.le F64.nan (F64.val 100) = false := by
  refine ⟨?_, rfl, rfl⟩
  with_unfolding_all rfl

/-- C5 (amended): every student reachable from `new` by a sequence of
`add_grade` calls satisfies: every stored grade passed the range guard
(it lies in [0, 100] or is NaN), and the cached letter grade equals the
threshold letter of the current average (`none` exactly when empty). -/
theorem reachable_invariant (name : String) (gs : List F64) :
    studentInv (addAll (Student.new name) gs) := by
  have main : ∀ (l : List F64) (s : Student), studentInv s → studentInv (addAll s l) := by
    intro l
    induction l with
    | nil => intro s h; exact h
    | cons g l ih =>
      intro s h
      exact ih _ (studentInv_add_grade s g h)
  exact main gs _ (studentInv_new name)

/-- C6: the report is a function of the student state alone (two states
with equal fields give byte-identical text), and a student with no
grades and no cached letter reports the "No grades yet" and "N/A"
placeholders. -/
theorem generate_report_pure (s t : Student) :
    (s.name = t.name → s.grades = t.grades → s.letter_grade = t.letter_grade →
      s.generate_report = t.generate_report) ∧
      (s.grades = [] → s.letter_grade = none →
        s.generate_report =
          "Student: " ++ s.name ++ "\nGrades: []\nAverage: No grades yet\nLetter Grade: N/A") := by
  constructor
  · intro h1 h2 h3
    have hst : s = t := by
      cases s
      cases t
      simp only at h1 h2 h3
      simp [h1, h2, h3]
    rw [hst]
  · intro h1 h2
    simp only [generate_report, h1, h2, calculate_average, List.isEmpty_nil, if_true,
      Option.map_none', Option.getD_none, vecDebug_nil]
    simp only [string_append_assoc]
    congr 1

/-- Witness for C6: the fresh student "Bob" reports the placeholders. -/
theorem generate_report_pure_witness :
    (Student.new "Bob").generate_report =
      "Student: Bob\nGrades: []\nAverage: No grades yet\nLetter Grade: N/A" :=
  ((generate_report_pure (Student.new "Bob") (Student.new "Bob")).2 rfl rfl).trans
    (by with_unfolding_all rfl)

/-- C7: the Alice scenario of `main`: adding 85 succeeds with average 85
and letter B; then adding 92 succeeds with average 88.5 and letter B; the
grades stand in insertion order and the report lists `[85.0, 92.0]`. -/
theorem end_to_end_alice :
    ((Student.new "Alice").add_grade (F64.val 85)).1 = Except.ok () ∧
      ((Student.new "Alice").add_grade (F64.val 85)).2.calculate_average =
        some (F64.val 85) ∧
      ((Student.new "Alice").add_grade (F64.val 85)).2.letter_grade = some 'B' ∧
      (((Student.new "Alice").add_grade (F64.val 85)).2.add_grade (F64.val 92)).1 =
        Except.ok () ∧
      (((Student.new "Alice").add_grade (F64.val 85)).2.add_grade
          (F64.val 92)).2.calculate_average = some (F64.val (177 / 2)) ∧
      (((Student.new "Alice").add_grade (F64.val 85)).2.add_grade
          (F64.val 92)).2.letter_grade = some 'B' ∧
      (((Student.new "Alice").add_grade (F64.val 85)).2.add_grade (F64.val 92)).2.grades =
        [F64.val 85, F64.val 92] ∧
      (((Student.new "Alice").add_grade (F64.val 85)).2.add_grade
          (F64.val 92)).2.generate_report =
        "Student: Alice\nGrades: [85.0, 92.0]\nAverage: 88.5\nLetter Grade: B" := by
  refine ⟨?_, ?_, ?_, ?_, ?_, ?_, ?_, ?_⟩ <;> with_unfolding_all rfl

end Student
